import Mathlib

/-!
Verification of the moola_integration client scripts.

The repository consists of two frappe form scripts for the "Moola Settings"
document:

* `moola_settings.js` — on refresh, when the record is saved and
  `frm.doc.enabled` is truthy, adds a "Sync Now" button which calls
  `moola_integration.api.sync_now` with `freeze: true` and displays
  `r.message || "Done"`.

* the second script (unnamed file) — on refresh, when the record is saved,
  adds a "Sync From Date" button which prompts for `from_date` (Date,
  required, default today minus 7 days) and `advance_cursor` (Check,
  default 0), then calls `moola_integration.api.sync_from_date` with
  `args: \x7bfrom_date: values.from_date, advance_cursor: values.advance_cursor ? 1 : 0\x7d`,
  `freeze: true` and a freeze message interpolating the date; on a truthy
  `r.message` it displays a four-counter summary and reloads the document.

We embed the JavaScript value domain (`JVal`, with its truthiness and
string conversion), frappe's client-side `\x7b0\x7d`-placeholder string formatting,
and each script's refresh, prompt, call and callback behaviour, and prove
the specified properties about them.
-/

/-- Embedding of the JavaScript values these scripts manipulate:
`undefined`, `null`, booleans, numbers (integral here), strings, frappe
date values (modelled as day numbers), and plain objects as association
lists of named fields. -/
inductive JVal where
  | undef : JVal
  | jnull : JVal
  | jbool : Bool → JVal
  | jnum : Int → JVal
  | jstr : String → JVal
  | jdate : Int → JVal
  | jobj : List (String × JVal) → JVal

/-- JavaScript truthiness: `undefined`, `null`, `false`, `0` and the empty
string are falsy; every other value occurring here is truthy (objects are
always truthy). -/
def truthy : JVal → Bool
  | JVal.undef => false
  | JVal.jnull => false
  | JVal.jbool b => b
  | JVal.jnum n => decide (n ≠ 0)
  | JVal.jstr s => decide (s ≠ "")
  | JVal.jdate _ => true
  | JVal.jobj _ => true

/-- JavaScript string conversion, as applied when a value is interpolated
into a message or displayed. -/
def jvalToString : JVal → String
  | JVal.undef => "undefined"
  | JVal.jnull => "null"
  | JVal.jbool b => if b then "true" else "false"
  | JVal.jnum n => toString n
  | JVal.jstr s => s
  | JVal.jdate d => toString d
  | JVal.jobj _ => "[object Object]"

/-- The JavaScript `||` operator: returns the left operand when it is
truthy, the right operand otherwise. -/
def jsOr (a b : JVal) : JVal :=
  if truthy a then a else b

/-- Field lookup in an object's association list (first match). -/
def lookupField : List (String × JVal) → String → JVal
  | [], _ => JVal.undef
  | (k, v) :: rest, key => if k = key then v else lookupField rest key

/-- JavaScript property access / destructuring as used in the callbacks:
a named field of an object, `undefined` on any non-object (destructuring a
truthy primitive yields `undefined` fields). -/
def getField : JVal → String → JVal
  | JVal.jobj fields, key => lookupField fields key
  | _, _ => JVal.undef

/-- The opening-brace character of a `\x7bn\x7d` placeholder. -/
def lbrace : Char := Char.ofNat 123

/-- The closing-brace character of a `\x7bn\x7d` placeholder. -/
def rbrace : Char := Char.ofNat 125

/-- Numeric value of a placeholder's digit characters. -/
def digitsToNat (ds : List Char) : Nat :=
  ds.foldl (fun n c => 10 * n + (c.toNat - 48)) 0

/-- Replacement text for placeholder index `i`: the argument at that index
when present, otherwise the placeholder's original text (mirroring the
classic `\x7b(\d+)\x7d` replace callback frappe's client formatting uses). -/
def argAt (args : List String) (i : Nat) (ds : List Char) : String :=
  match args[i]? with
  | some s => s
  | none => String.mk (lbrace :: ds ++ [rbrace])

/-- Modelled from the framework (an external collaborator of this repo):
single pass of the `\x7b(\d+)\x7d` global-replace over the template characters,
splicing in the corresponding argument without re-scanning it. The fuel
parameter only drives the structural recursion; one unit is spent per
consumed character, so fuel equal to the input length never runs out. -/
def renderAux (args : List String) : Nat → List Char → List Char
  | _, [] => []
  | 0, cs => cs
  | fuel + 1, c :: cs =>
    if c = lbrace then
      let ds := cs.takeWhile Char.isDigit
      match cs.dropWhile Char.isDigit with
      | c2 :: rest2 =>
        if ds ≠ [] ∧ c2 = rbrace then
          (argAt args (digitsToNat ds) ds).data ++ renderAux args fuel rest2
        else
          c :: renderAux args fuel cs
      | [] => c :: renderAux args fuel cs
    else
      c :: renderAux args fuel cs

/-- Modelled from the framework: frappe's `__(template, args)` client-side
message formatting — substitute each `\x7bn\x7d` placeholder in the template by
the `n`-th argument. Translation lookup is the identity here (no
translations are shipped by this repository). -/
def formatString (t : String) (args : List String) : String :=
  String.mk (renderAux args t.data.length t.data)

/-- The settings document, as read by the scripts: only the `enabled`
attribute is consulted. -/
structure MoolaSettingsDoc where
  enabled : JVal

/-- The form object handed to each script's `refresh` handler: whether the
record is unsaved (`frm.is_new()`) and the underlying document. -/
structure SettingsForm where
  is_new : Bool
  doc : MoolaSettingsDoc

/-- A custom button added to the form: its label and whether the script
additionally tagged it with the `btn-primary` class. -/
structure Button where
  label : String
  primary : Bool

/-- The button the unnamed script adds: label `Sync From Date`, tagged
`btn-primary` by the trailing `.addClass('btn-primary')`. -/
def syncFromDateButton : Button :=
  { label := "Sync From Date", primary := true }

/-- The button `moola_settings.js` adds: label `Sync Now`, no extra class. -/
def syncNowButton : Button :=
  { label := "Sync Now", primary := false }

/-- Refresh handler of the unnamed Sync From Date script:
`if (!frm.is_new())` add the `Sync From Date` button; otherwise add
nothing. -/
def syncFromDateRefresh (frm : SettingsForm) : List Button :=
  if !frm.is_new then [syncFromDateButton] else []

/-- Refresh handler of `moola_settings.js`:
`if (!frm.is_new() && frm.doc.enabled)` add the `Sync Now` button;
otherwise add nothing. -/
def syncNowRefresh (frm : SettingsForm) : List Button :=
  if !frm.is_new && truthy frm.doc.enabled then [syncNowButton] else []

/-- One field descriptor of a `frappe.prompt` form, with the attributes
the script sets (`reqd` is `none` when the script omits the attribute). -/
structure PromptField where
  fieldname : String
  fieldtype : String
  label : String
  reqd : Option Nat
  default : JVal

/-- Modelled from the framework: `frappe.datetime.add_days` on day-number
dates. -/
def add_days (d : Int) (n : Int) : Int := d + n

/-- The two prompt fields of the Sync From Date dialog, parametrised by
the value of `frappe.datetime.get_today()` (a day number): `from_date`
(Date, required, default `add_days(get_today(), -7)`) and `advance_cursor`
(Check, default `0`, no `reqd` attribute). -/
def syncFromDatePromptFields (today : Int) : List PromptField :=
  [ { fieldname := "from_date", fieldtype := "Date", label := "From Date",
      reqd := some 1, default := JVal.jdate (add_days today (-7)) },
    { fieldname := "advance_cursor", fieldtype := "Check",
      label := "Advance Cursor if Successful (optional)",
      reqd := none, default := JVal.jnum 0 } ]

/-- The values object the prompt hands to its confirmation callback. -/
structure PromptValues where
  from_date : JVal
  advance_cursor : JVal

/-- One `frappe.call` invocation as configured by a script: the method
identifier, the flat argument mapping, the `freeze` option, and the
optional `freeze_message`. -/
structure CallSpec where
  method : String
  args : List (String × JVal)
  freeze : Bool
  freeze_message : Option String

/-- The template of the Sync From Date freeze message. -/
def syncingFromTemplate : String := "Syncing from \x7b0\x7d…"

/-- The template of the Sync From Date summary message. -/
def syncCompleteTemplate : String :=
  "Sync complete.<br>Fetched: \x7b0\x7d<br>Created JE: \x7b1\x7d<br>Skipped: \x7b2\x7d<br>Errors: \x7b3\x7d"

/-- The `frappe.call` issued by the Sync From Date prompt callback:
method `moola_integration.api.sync_from_date`, args
`\x7bfrom_date: values.from_date, advance_cursor: values.advance_cursor ? 1 : 0\x7d`,
`freeze: true`, and the freeze message interpolating the chosen date. -/
def syncFromDateCall (values : PromptValues) : CallSpec :=
  { method := "moola_integration.api.sync_from_date",
    args := [("from_date", values.from_date),
             ("advance_cursor", JVal.jnum (if truthy values.advance_cursor then 1 else 0))],
    freeze := true,
    freeze_message := some (formatString syncingFromTemplate [jvalToString values.from_date]) }

/-- The `frappe.call` issued by the Sync Now button: method
`moola_integration.api.sync_now`, no args, `freeze: true`, no custom
freeze message. -/
def syncNowCall : CallSpec :=
  { method := "moola_integration.api.sync_now",
    args := [],
    freeze := true,
    freeze_message := none }

/-- Observable UI effects a callback performs, in order. -/
inductive Effect where
  | msgprint : String → Effect
  | reloadDoc : Effect
deriving DecidableEq

/-- The Sync From Date response callback: when `r.message` is truthy,
destructure the four counters, display the summary message and reload the
document (in that order); otherwise do nothing. -/
def syncFromDateCallback (rmessage : JVal) : List Effect :=
  if truthy rmessage then
    [ Effect.msgprint (formatString syncCompleteTemplate
        [ jvalToString (getField rmessage ("fetched")),
          jvalToString (getField rmessage ("created")),
          jvalToString (getField rmessage ("skipped")),
          jvalToString (getField rmessage ("errors")) ]),
      Effect.reloadDoc ]
  else []

/-- The string the Sync Now callback displays: `r.message || "Done"`. -/
def syncNowDisplayed (rmessage : JVal) : String :=
  jvalToString (jsOr rmessage (JVal.jstr "Done"))

/-- The Sync Now response callback: `frappe.msgprint(r.message || "Done")`. -/
def syncNowCallback (rmessage : JVal) : List Effect :=
  [Effect.msgprint (syncNowDisplayed rmessage)]

/-! ## Rendering lemmas for the two message templates -/

/-- Rendering the freeze-message template splices the single argument
between the literal pieces of the template. -/
theorem formatString_syncingFrom (s : String) :
    formatString syncingFromTemplate [s] = "Syncing from " ++ s ++ "…" := rfl

set_option maxRecDepth 4096 in
/-- Rendering the summary template splices the four arguments, in order,
between its literal pieces. -/
theorem formatString_syncComplete (a b c d : String) :
    formatString syncCompleteTemplate [a, b, c, d] =
      "Sync complete.<br>Fetched: " ++ (a ++ ("<br>Created JE: " ++ (b ++
        ("<br>Skipped: " ++ (c ++ ("<br>Errors: " ++ d)))))) := by
  have h : formatString syncCompleteTemplate [a, b, c, d] =
      "Sync complete.<br>Fetched: " ++ (a ++ ("<br>Created JE: " ++ (b ++
        ("<br>Skipped: " ++ (c ++ ("<br>Errors: " ++ (d ++ ""))))))) := rfl
  rw [h, String.append_empty]

/-! ## The claims -/

/-- Claim C1: for every confirmed Sync From Date prompt with
from_date = "2024-01-01" and the advance-cursor flag unchecked (falsy),
the argument mapping passed to the sync_from_date remote procedure is
exactly from_date ↦ "2024-01-01", advance_cursor ↦ 0, with no other
keys. -/
theorem C1_sync_from_date_args_exact (v : PromptValues)
    (h1 : v.from_date = JVal.jstr ("2024-01-01"))
    (h2 : truthy v.advance_cursor = false) :
    (syncFromDateCall v).args =
      [("from_date", JVal.jstr ("2024-01-01")), ("advance_cursor", JVal.jnum 0)] := by
  simp [syncFromDateCall, h1, h2]

/-- Witness for C1 at the concrete prompt values
(from_date "2024-01-01", advance_cursor 0). -/
theorem C1_sync_from_date_args_exact_witness :
    (syncFromDateCall { from_date := JVal.jstr ("2024-01-01"), advance_cursor := JVal.jnum 0 }).args =
      [("from_date", JVal.jstr ("2024-01-01")), ("advance_cursor", JVal.jnum 0)] :=
  C1_sync_from_date_args_exact _ rfl rfl

/-- Claim C2: the advance_cursor argument sent to sync_from_date is the
integer 1 when the flag is truthy and the integer 0 when it is falsy, and
it is never a boolean value. -/
theorem C2_advance_cursor_sent_as_integer (v : PromptValues) :
    lookupField (syncFromDateCall v).args ("advance_cursor") =
      JVal.jnum (if truthy v.advance_cursor then 1 else 0) ∧
    ∀ b : Bool,
      lookupField (syncFromDateCall v).args ("advance_cursor") ≠ JVal.jbool b := by
  constructor
  · simp [syncFromDateCall, lookupField]
  · intro b
    simp [syncFromDateCall, lookupField]

/-- Witness for C2: with the flag checked the argument is the integer 1,
with it unchecked the integer 0. -/
theorem C2_advance_cursor_sent_as_integer_witness :
    lookupField (syncFromDateCall { from_date := JVal.jstr ("2024-01-01"), advance_cursor := JVal.jbool true }).args ("advance_cursor") = JVal.jnum 1 ∧
    lookupField (syncFromDateCall { from_date := JVal.jstr ("2024-01-01"), advance_cursor := JVal.jnum 0 }).args ("advance_cursor") = JVal.jnum 0 := by
  constructor
  · have h := (C2_advance_cursor_sent_as_integer
      { from_date := JVal.jstr ("2024-01-01"), advance_cursor := JVal.jbool true }).1
    simpa using h
  · have h := (C2_advance_cursor_sent_as_integer
      { from_date := JVal.jstr ("2024-01-01"), advance_cursor := JVal.jnum 0 }).1
    simpa using h

/-- Claim C3: on refresh, the Sync Now button is added precisely when the
record is saved (not new) and its enabled attribute is truthy; in every
other state nothing is added. -/
theorem C3_sync_now_button_iff (frm : SettingsForm) :
    (syncNowRefresh frm = [syncNowButton] ↔
      frm.is_new = false ∧ truthy frm.doc.enabled = true) ∧
    (syncNowRefresh frm = [syncNowButton] ∨ syncNowRefresh frm = []) := by
  obtain ⟨n, e⟩ := frm
  cases n <;> cases h : truthy e.enabled <;> simp [syncNowRefresh, h]

/-- Claim C4: on refresh, the Sync From Date button is added precisely
when the record is saved (not new), independently of the enabled
attribute; nothing else is ever added. -/
theorem C4_sync_from_date_button_iff (frm : SettingsForm) :
    (syncFromDateRefresh frm = [syncFromDateButton] ↔ frm.is_new = false) ∧
    (syncFromDateRefresh frm = [syncFromDateButton] ∨ syncFromDateRefresh frm = []) ∧
    (∀ e e' : JVal,
      syncFromDateRefresh { is_new := frm.is_new, doc := { enabled := e } } =
        syncFromDateRefresh { is_new := frm.is_new, doc := { enabled := e' } }) := by
  obtain ⟨n, e⟩ := frm
  cases n <;> simp [syncFromDateRefresh]

/-- Claim C5: for every sync_from_date response whose result payload
carries integer counters fetched, created, skipped and errors, the
callback first displays the summary message interpolating the four
counters in the order fetched, created, skipped, errors, and afterwards
reloads the on-screen document. -/
theorem C5_sync_from_date_summary_and_reload (fields : List (String × JVal)) (f c s e : Int)
    (hf : lookupField fields ("fetched") = JVal.jnum f)
    (hc : lookupField fields ("created") = JVal.jnum c)
    (hs : lookupField fields ("skipped") = JVal.jnum s)
    (he : lookupField fields ("errors") = JVal.jnum e) :
    syncFromDateCallback (JVal.jobj fields) =
      [ Effect.msgprint ("Sync complete.<br>Fetched: " ++ (toString f ++ ("<br>Created JE: " ++
          (toString c ++ ("<br>Skipped: " ++ (toString s ++ ("<br>Errors: " ++ toString e))))))),
        Effect.reloadDoc ] := by
  simp [syncFromDateCallback, truthy, getField, hf, hc, hs, he, jvalToString,
    formatString_syncComplete]

/-- Witness for C5 at the payload of the specification's example,
fetched 10, created 8, skipped 1, errors 1. -/
theorem C5_sync_from_date_summary_and_reload_witness :
    syncFromDateCallback (JVal.jobj
        [("fetched", JVal.jnum 10), ("created", JVal.jnum 8),
         ("skipped", JVal.jnum 1), ("errors", JVal.jnum 1)]) =
      [ Effect.msgprint ("Sync complete.<br>Fetched: 10<br>Created JE: 8<br>Skipped: 1<br>Errors: 1"),
        Effect.reloadDoc ] := by
  have h := C5_sync_from_date_summary_and_reload
    [("fetched", JVal.jnum 10), ("created", JVal.jnum 8),
     ("skipped", JVal.jnum 1), ("errors", JVal.jnum 1)]
    10 8 1 1 rfl rfl rfl rfl
  rw [h]
  rfl

/-- Claim C6: the Sync Now callback displays exactly the server-returned
message text when a (truthy) one is present, and exactly the literal
"Done" when the response carries no message. -/
theorem C6_sync_now_message_or_done (m : String) :
    (truthy (JVal.jstr m) = true → syncNowDisplayed (JVal.jstr m) = m) ∧
    syncNowDisplayed JVal.undef = "Done" := by
  constructor
  · intro h
    simp [syncNowDisplayed, jsOr, h, jvalToString]
  · rfl

/-- Witness for C6: the message "All good" is displayed verbatim, an
absent message displays "Done". -/
theorem C6_sync_now_message_or_done_witness :
    syncNowDisplayed (JVal.jstr ("All good")) = "All good" ∧
    syncNowDisplayed JVal.undef = "Done" :=
  ⟨(C6_sync_now_message_or_done ("All good")).1 (by decide),
   (C6_sync_now_message_or_done ("All good")).2⟩

/-- Claim C7: the Sync From Date prompt presents exactly two fields:
from_date, a required Date field defaulting to the current date minus
seven days, and advance_cursor, an optional (no reqd attribute) Check
field defaulting to 0, which is unchecked (falsy). -/
theorem C7_prompt_fields (today : Int) :
    syncFromDatePromptFields today =
      [ { fieldname := "from_date", fieldtype := "Date", label := "From Date",
          reqd := some 1, default := JVal.jdate (today - 7) },
        { fieldname := "advance_cursor", fieldtype := "Check",
          label := "Advance Cursor if Successful (optional)",
          reqd := none, default := JVal.jnum 0 } ] ∧
    truthy (JVal.jnum 0) = false := by
  constructor
  · simp [syncFromDatePromptFields, add_days]
    omega
  · rfl

/-- Claim C8: both remote calls set the freeze option; the Sync From Date
call's freeze message interpolates the chosen from_date, while the Sync
Now call sets no custom freeze message. -/
theorem C8_freeze_discipline (v : PromptValues) :
    (syncFromDateCall v).freeze = true ∧ syncNowCall.freeze = true ∧
    (syncFromDateCall v).freeze_message =
      some ("Syncing from " ++ jvalToString v.from_date ++ "…") ∧
    syncNowCall.freeze_message = none := by
  refine ⟨rfl, rfl, ?_, rfl⟩
  show some (formatString syncingFromTemplate [jvalToString v.from_date]) = _
  rw [formatString_syncingFrom]

/-- Claim C9: when the sync_from_date response's payload is absent or
falsy, the callback performs no effect at all: no message and no
reload. -/
theorem C9_sync_from_date_silent_on_falsy (m : JVal) (h : truthy m = false) :
    syncFromDateCallback m = [] := by
  simp [syncFromDateCallback, h]

/-- Witness for C9 at an absent (undefined) payload. -/
theorem C9_sync_from_date_silent_on_falsy_witness :
    truthy JVal.undef = false ∧ syncFromDateCallback JVal.undef = [] :=
  ⟨rfl, C9_sync_from_date_silent_on_falsy JVal.undef rfl⟩

/-- Claim C10: for every falsy sync_now message value — undefined, null,
false, 0 or the empty string — the displayed message is exactly
"Done". -/
theorem C10_sync_now_done_on_falsy (m : JVal) (h : truthy m = false) :
    syncNowDisplayed m = "Done" := by
  simp [syncNowDisplayed, jsOr, h, jvalToString]

/-- Witness for C10 at the falsy message values 0 and the empty string. -/
theorem C10_sync_now_done_on_falsy_witness :
    (truthy (JVal.jnum 0) = false ∧ syncNowDisplayed (JVal.jnum 0) = "Done") ∧
    (truthy (JVal.jstr ("")) = false ∧ syncNowDisplayed (JVal.jstr ("")) = "Done") :=
  ⟨⟨by decide, C10_sync_now_done_on_falsy (JVal.jnum 0) (by decide)⟩,
   ⟨by decide, C10_sync_now_done_on_falsy (JVal.jstr ("")) (by decide)⟩⟩
